import Mathlib

/-!
Shallow embedding of the operation-dispatch core of `pacaptr`:
flag canonicalization (`src/dispatch/cmd.rs`), the table of the 30
supported operation identifiers (`crates/pacaptr-macros/src/compat_table.rs`),
and the `apt` / `brew` backend capability methods relevant to command
composition (`src/pm/apt.rs`, `src/pm/brew.rs`).
-/

namespace Pacaptr

/-- The `Config` value merged from the dotfile and the CLI flags
(fields as constructed by `Opts::merge_cfg` in `src/dispatch/cmd.rs`). -/
structure Config where
  dry_run : Bool := false
  needed : Bool := false
  no_confirm : Bool := false
  no_cache : Bool := false
  default_pm : Option String := none
  deriving DecidableEq, Repr

/-- The `Operations` subcommand enum of `src/dispatch/cmd.rs`: each variant
carries its boolean sub-flags (`bool`) and counter sub-flags
(`parse(from_occurrences)`, embedded as `Nat`), in source field order. -/
inductive Operations where
  | Query (c e : Bool) (i : Nat) (k l m o p s u : Bool)
  | Remove (n p : Bool) (s : Nat)
  | Sync (c : Nat) (g : Bool) (i : Nat) (l p s u w y : Bool)
  | Update (p : Bool)
  deriving DecidableEq, Repr

/-- A boolean sub-flag contributes its letter when set (`if $flag {
options.push_str(stringify!($flag)) }` in `collect_options!`). -/
def flagLetter (ch : Char) (b : Bool) : List Char :=
  if b then [ch] else []

/-- A counter sub-flag contributes its letter once per occurrence
(`for _ in 0..$counter { options.push_str(stringify!($counter)) }`). -/
def counterLetters (ch : Char) (n : Nat) : List Char :=
  List.replicate n ch

/-- The `collect_options!` macro expansion in `Opts::dispatch_from`: push the
leading (capital) operation letter, apply the `mappings` (config-field
aliases), then append letters for the `flags` and `counters` lists in their
listed order.  Returns the collected letters and the updated config. -/
def collectOptions : Operations → Config → List Char × Config
  | .Query c e i k l m o p s u, cfg =>
      (['Q'] ++ flagLetter 'c' c ++ flagLetter 'e' e ++ flagLetter 'k' k ++
        flagLetter 'l' l ++ flagLetter 'm' m ++ flagLetter 'o' o ++
        flagLetter 'p' p ++ flagLetter 's' s ++ flagLetter 'u' u ++
        counterLetters 'i' i, cfg)
  | .Remove n p s, cfg =>
      (['R'] ++ flagLetter 'n' n ++ counterLetters 's' s,
        if p then { cfg with dry_run := true } else cfg)
  | .Sync c g i l p s u w y, cfg =>
      (['S'] ++ flagLetter 'g' g ++ flagLetter 'l' l ++ flagLetter 's' s ++
        flagLetter 'u' u ++ flagLetter 'w' w ++ flagLetter 'y' y ++
        counterLetters 'c' c ++ counterLetters 'i' i,
        if p then { cfg with dry_run := true } else cfg)
  | .Update p, cfg =>
      (['U'], if p then { cfg with dry_run := true } else cfg)

/-- Canonicalization in `Opts::dispatch_from`: the collected letters are
sorted ascending (`options.chars().sorted_unstable()`) and the resulting
string is lower-cased at the dispatch site (`options.to_lowercase()`). -/
def dispatchKey (ops : Operations) (cfg : Config) : String × Config :=
  let oc := collectOptions ops cfg
  (String.mk ((List.insertionSort (· ≤ ·) oc.1).map Char.toLower), oc.2)

/-- The 30 operation identifiers, as listed both in the `dispatch_match!`
invocation in `src/dispatch/cmd.rs` and in `METHODS` of
`crates/pacaptr-macros/src/compat_table.rs`. -/
def METHODS : List String :=
  ["q", "qc", "qe", "qi", "qk", "ql", "qm", "qo", "qp", "qs", "qu",
   "r", "rn", "rns", "rs", "rss",
   "s", "sc", "scc", "sccc", "sg", "si", "sii", "sl", "ss", "su", "suy",
   "sw", "sy", "u"]

/-- Error values surfaced by the dispatch core (`Error::ArgParseError` from
`src/dispatch/cmd.rs`; process failures are carried abstractly). -/
inductive Error where
  | argParseError (msg : String)
  | cmdError (code : Int)
  deriving DecidableEq, Repr

/-- One external command, as assembled by the backends: `Cmd::new` /
`Cmd::with_sudo` with `.kws(..)` and `.flags(..)`. -/
structure Cmd where
  sudo_ : Bool := false
  cmd_ : List String
  kws : List String := []
  flags : List String := []
  deriving DecidableEq, Repr

/-- A backend capability call's outcome: the propagated result together with
the ordered trace of external commands issued. -/
abbrev ExecResult := Except Error Unit × List Cmd

instance : DecidableEq (Except Error Unit) := fun a b =>
  match a, b with
  | .ok (), .ok () => isTrue rfl
  | .error e, .error e' =>
      if h : e = e' then isTrue (by rw [h]) else isFalse (by intro hc; cases hc; exact h rfl)
  | .ok _, .error _ => isFalse (by intro hc; cases hc)
  | .error _, .ok _ => isFalse (by intro hc; cases hc)

/-- Modelled from the spec: the Executor (in `src/exec.rs` and `just_run` /
`run` / `run_with` of `src/pm/mod.rs`, not present under `src/`) in normal
mode — no dry-run, prompts confirmed — spawns the one command and bubbles
its result back up; the oracle stands for the OS process's outcome. -/
def runCmd (oracle : Cmd → Except Error Unit) (c : Cmd) : ExecResult :=
  (oracle c, [c])

/-- Sequential composition with the semantics of Rust's `?` operator: an
error short-circuits, a success continues and the traces concatenate. -/
def andThen (a : ExecResult) (b : Unit → ExecResult) : ExecResult :=
  match a with
  | (Except.ok _, tr) => ((b ()).1, tr ++ (b ()).2)
  | (Except.error e, tr) => (Except.error e, tr)

/-- Modelled from the spec: a CommandBuilder renders deterministically as
privilege prefix, program and base args, keywords, extra flags, all kept as
a discrete argument list. -/
def Cmd.render (c : Cmd) : List String :=
  (if c.sudo_ then ["sudo"] else []) ++ c.cmd_ ++ c.kws ++ c.flags

/-- The dispatch step of `Opts::dispatch_from`: the lower-cased sorted key is
matched against the 30 method names; a match invokes the backend capability
method (abstracted as `pm`) with the keywords and extra flags, anything else
fails with `ArgParseError { msg: "Invalid flag" }` and issues no command. -/
def dispatch_from (pm : Config → String → List String → List String → ExecResult)
    (ops : Operations) (kws flags : List String) (cfg : Config) : ExecResult :=
  let kc := dispatchKey ops cfg
  if kc.1 ∈ METHODS then pm kc.2 kc.1 kws flags
  else (Except.error (Error.argParseError "Invalid flag"), [])

/-- The CLI options struct `Opts` of `src/dispatch/cmd.rs` (the `using`
field is named `using_` here). -/
structure Opts where
  operations : Operations
  using_ : Option String := none
  dry_run : Bool := false
  needed : Bool := false
  no_confirm : Bool := false
  no_cache : Bool := false
  keywords : List String := []
  extra_flags : List String := []
  deriving DecidableEq, Repr

/-- The `Opts::merge_cfg` function of `src/dispatch/cmd.rs`, field for field
as written in the source (note: its `needed` field reads `dotfile.dry_run`). -/
def Opts.merge_cfg (self : Opts) (dotfile : Config) : Config :=
  { dry_run := self.dry_run || dotfile.dry_run
    needed := self.needed || dotfile.dry_run
    no_confirm := self.no_confirm || dotfile.no_confirm
    no_cache := self.no_cache || dotfile.no_cache
    default_pm := self.using_.or dotfile.default_pm }

/-- `Apt::s` (`src/pm/apt.rs`): `apt install`, with `--reinstall` unless
`cfg.needed` is set; run with sudo. -/
def Apt.s (oracle : Cmd → Except Error Unit) (cfg : Config)
    (kws flags : List String) : ExecResult :=
  runCmd oracle
    { sudo_ := true,
      cmd_ := if cfg.needed then ["apt", "install"]
             else ["apt", "install", "--reinstall"],
      kws := kws, flags := flags }

/-- `Apt::su` (`src/pm/apt.rs`): with no keywords, `apt upgrade` then
`apt dist-upgrade` (the second only after the first succeeds); with
keywords, delegates to `s`. -/
def Apt.su (oracle : Cmd → Except Error Unit) (cfg : Config)
    (kws flags : List String) : ExecResult :=
  if kws = [] then
    andThen (runCmd oracle { sudo_ := true, cmd_ := ["apt", "upgrade"], flags := flags })
      (fun _ => runCmd oracle { sudo_ := true, cmd_ := ["apt", "dist-upgrade"], flags := flags })
  else Apt.s oracle cfg kws flags

/-- `Apt::sy` (`src/pm/apt.rs`): `apt update` with the keywords and flags,
then, if keywords are present, `s`. -/
def Apt.sy (oracle : Cmd → Except Error Unit) (cfg : Config)
    (kws flags : List String) : ExecResult :=
  andThen (runCmd oracle { sudo_ := true, cmd_ := ["apt", "update"], kws := kws, flags := flags })
    (fun _ => if kws = [] then (Except.ok (), []) else Apt.s oracle cfg kws flags)

/-- `Apt::suy` (`src/pm/apt.rs`): `self.sy(kws, flags).await?;
self.su(kws, flags).await`. -/
def Apt.suy (oracle : Cmd → Except Error Unit) (cfg : Config)
    (kws flags : List String) : ExecResult :=
  andThen (Apt.sy oracle cfg kws flags) (fun _ => Apt.su oracle cfg kws flags)

/-- `Apt::sw` (`src/pm/apt.rs`): `apt install --download-only` with sudo. -/
def Apt.sw (oracle : Cmd → Except Error Unit) (cfg : Config)
    (kws flags : List String) : ExecResult :=
  runCmd oracle
    { sudo_ := true, cmd_ := ["apt", "install", "--download-only"],
      kws := kws, flags := flags }

/-- `Brew::s` (`src/pm/brew.rs`): `brew install` when `cfg.needed`, else
`brew reinstall`; no sudo. -/
def Brew.s (oracle : Cmd → Except Error Unit) (cfg : Config)
    (kws flags : List String) : ExecResult :=
  runCmd oracle
    { cmd_ := if cfg.needed then ["brew", "install"] else ["brew", "reinstall"],
      kws := kws, flags := flags }

/-- `Brew::su` (`src/pm/brew.rs`): `brew upgrade` with keywords and flags. -/
def Brew.su (oracle : Cmd → Except Error Unit) (cfg : Config)
    (kws flags : List String) : ExecResult :=
  runCmd oracle { cmd_ := ["brew", "upgrade"], kws := kws, flags := flags }

/-- `Brew::sy` (`src/pm/brew.rs`): `brew update` (flags only), then, if
keywords are present, `s`. -/
def Brew.sy (oracle : Cmd → Except Error Unit) (cfg : Config)
    (kws flags : List String) : ExecResult :=
  andThen (runCmd oracle { cmd_ := ["brew", "update"], flags := flags })
    (fun _ => if kws = [] then (Except.ok (), []) else Brew.s oracle cfg kws flags)

/-- `Brew::suy` (`src/pm/brew.rs`): `self.sy(&[], flags).await?;
self.su(kws, flags).await`. -/
def Brew.suy (oracle : Cmd → Except Error Unit) (cfg : Config)
    (kws flags : List String) : ExecResult :=
  andThen (Brew.sy oracle cfg [] flags) (fun _ => Brew.su oracle cfg kws flags)

/-- `Brew::si` (`src/pm/brew.rs`): `brew info` with keywords and flags. -/
def Brew.si (oracle : Cmd → Except Error Unit) (cfg : Config)
    (kws flags : List String) : ExecResult :=
  runCmd oracle { cmd_ := ["brew", "info"], kws := kws, flags := flags }

/-- `Brew::qi` (`src/pm/brew.rs`): delegates to `self.si(kws, flags)`. -/
def Brew.qi (oracle : Cmd → Except Error Unit) (cfg : Config)
    (kws flags : List String) : ExecResult :=
  Brew.si oracle cfg kws flags

/-- `Brew::sw` (`src/pm/brew.rs`): `brew fetch` with keywords and flags;
no sudo. -/
def Brew.sw (oracle : Cmd → Except Error Unit) (cfg : Config)
    (kws flags : List String) : ExecResult :=
  runCmd oracle { cmd_ := ["brew", "fetch"], kws := kws, flags := flags }

/-- A trivial backend whose every capability method succeeds without issuing
commands; used to instantiate theorems quantified over backends. -/
def pmTrivial : Config → String → List String → List String → ExecResult :=
  fun _ _ _ _ => (Except.ok (), [])

/-- An OS oracle that fails (exit code 1) exactly on the two database-refresh
commands `apt update` and `brew update`, and succeeds on everything else. -/
def failRefresh : Cmd → Except Error Unit := fun c =>
  if c.cmd_ = ["apt", "update"] ∨ c.cmd_ = ["brew", "update"] then
    Except.error (Error.cmdError 1)
  else Except.ok ()

/-- C1: `Opts::merge_cfg` is claimed to merge field-for-field with CLI
precedence, the merged `needed` depending only on the two `needed` fields.
The code instead computes `needed` as `self.needed || dotfile.dry_run`:
a persisted `needed = true` is dropped, and a persisted `dry_run = true`
leaks into `needed` although both `needed` inputs are false. -/
theorem merge_cfg_needed_reads_dry_run :
    (({ operations := .Update false } : Opts).merge_cfg { needed := true }).needed = false
    ∧ (({ operations := .Update false } : Opts).merge_cfg { dry_run := true }).needed = true := by
  constructor <;> rfl

/-- Decides whether a character sequence is strictly ascending (each code
point strictly below the next). -/
def strictAscChars : List Char → Bool
  | a :: b :: rest => decide (a.toNat < b.toNat) && strictAscChars (b :: rest)
  | _ => true

/-- Decides whether a character sequence is ascending with repeats allowed
(each code point at most the next). -/
def ascChars : List Char → Bool
  | a :: b :: rest => decide (a.toNat ≤ b.toNat) && ascChars (b :: rest)
  | _ => true

/-- C2 counterexample: the identifiers "qc" and "scc" are accepted by the
dispatcher yet are not strictly ascending ('q' > 'c'; 'c' repeats). -/
theorem methods_not_strictly_ascending :
    ("qc" ∈ METHODS ∧ strictAscChars "qc".data = false)
    ∧ ("scc" ∈ METHODS ∧ strictAscChars "scc".data = false) := by
  decide

/-- C2 (amended): every accepted identifier, viewed in its pre-lowercasing
form with the leading operation letter uppercase, has non-decreasing
(ascending with repeats) characters — which is what the sort-then-lowercase
canonicalization relies on. -/
theorem methods_sorted_with_upper_head :
    ∀ s ∈ METHODS,
      ascChars ((s.data.take 1).map Char.toUpper ++ s.data.drop 1) = true := by
  decide

/-- Witness for the amended C2 theorem at the identifier "suy". -/
theorem methods_sorted_with_upper_head_witness :
    ascChars (("suy".data.take 1).map Char.toUpper ++ "suy".data.drop 1) = true :=
  methods_sorted_with_upper_head "suy" (by decide)

/-- C4: the composed operation `suy` (for both `apt` and `brew`) runs its
`sy` step first; if that step fails, the failure — result and command trace
alike — is propagated unchanged, so the `su` step issues no command. -/
theorem suy_short_circuits :
    ∀ (oracle : Cmd → Except Error Unit) (cfg : Config) (kws flags : List String)
      (e : Error) (tr : List Cmd),
      (Apt.sy oracle cfg kws flags = (Except.error e, tr) →
        Apt.suy oracle cfg kws flags = (Except.error e, tr))
      ∧ (Brew.sy oracle cfg [] flags = (Except.error e, tr) →
        Brew.suy oracle cfg kws flags = (Except.error e, tr)) := by
  intro oracle cfg kws flags e tr
  constructor <;> intro h <;> simp [Apt.suy, Brew.suy, andThen, h]

/-- Witness for C4: with the oracle failing on the refresh commands, both
`suy` implementations stop after the single refresh command and return its
failure. -/
theorem suy_short_circuits_witness :
    Apt.suy failRefresh {} [] []
        = (Except.error (Error.cmdError 1), [{ sudo_ := true, cmd_ := ["apt", "update"] }])
    ∧ Brew.suy failRefresh {} [] []
        = (Except.error (Error.cmdError 1), [{ cmd_ := ["brew", "update"] }]) :=
  ⟨(suy_short_circuits failRefresh {} [] [] (Error.cmdError 1) _).1 (by decide),
   (suy_short_circuits failRefresh {} [] [] (Error.cmdError 1) _).2 (by decide)⟩

/-- A backend exposing Brew's `sw` capability under its dispatch key and
succeeding silently elsewhere; used for the end-to-end `-Sw` instance. -/
def pmBrewSw (oracle : Cmd → Except Error Unit) :
    Config → String → List String → List String → ExecResult :=
  fun cfg k kws flags =>
    if k = "sw" then Brew.sw oracle cfg kws flags else (Except.ok (), [])

/-- C8: the flags `-Sw` canonicalize to "sw" and dispatch invokes the
backend's `sw` capability with the keyword and extra-flag lists; for the
Brew backend, whose `sw` maps to the single download-only command
`brew fetch` with no privilege prefix, in normal mode
(`dry_run = false`, the mode the `runCmd` executor model stands for)
exactly one child command is issued, rendering as the base args followed by
the keywords and then the extra flags — so dispatching `-Sw` with keywords
`["curl", "wget"]` and no extra flags against that backend issues the one
command `brew fetch curl wget`. -/
theorem sw_dispatch_single_download_cmd :
    ∀ (pm : Config → String → List String → List String → ExecResult)
      (oracle : Cmd → Except Error Unit) (cfg : Config) (kws flags : List String),
      dispatchKey (.Sync 0 false 0 false false false false true false) cfg = ("sw", cfg)
      ∧ dispatch_from pm (.Sync 0 false 0 false false false false true false) kws flags cfg
          = pm cfg "sw" kws flags
      ∧ (cfg.dry_run = false →
          (Brew.sw oracle cfg kws flags).2.length = 1
          ∧ (Brew.sw oracle cfg kws flags).2.map Cmd.sudo_ = [false]
          ∧ (Brew.sw oracle cfg kws flags).2.map Cmd.render
              = [["brew", "fetch"] ++ kws ++ flags]
          ∧ (dispatch_from (pmBrewSw oracle)
                (.Sync 0 false 0 false false false false true false)
                ["curl", "wget"] [] cfg).2.map Cmd.render
              = [["brew", "fetch", "curl", "wget"]]) := by
  intro pm oracle cfg kws flags
  have hkey : dispatchKey (.Sync 0 false 0 false false false false true false) cfg
      = ("sw", cfg) := by
    simp +decide [dispatchKey, collectOptions, flagLetter, counterLetters, Prod.mk.injEq]
  have hdisp : ∀ (pm' : Config → String → List String → List String → ExecResult)
      (k f : List String),
      dispatch_from pm' (.Sync 0 false 0 false false false false true false) k f cfg
        = pm' cfg "sw" k f := by
    intro pm' k f
    simp only [dispatch_from, hkey]
    rw [if_pos (by decide)]
  refine ⟨hkey, hdisp pm kws flags, fun _ => ⟨rfl, rfl, rfl, ?_⟩⟩
  rw [hdisp (pmBrewSw oracle) ["curl", "wget"] []]
  rfl

/-- Witness for C8 at the default config (whose `dry_run` is false): `-Sw`
dispatches to the "sw" capability, and end-to-end against the Brew backend
the one issued command renders as `brew fetch curl wget`. -/
theorem sw_dispatch_single_download_cmd_witness :
    dispatch_from pmTrivial (.Sync 0 false 0 false false false false true false)
        ["curl", "wget"] [] {}
      = pmTrivial {} "sw" ["curl", "wget"] []
    ∧ (dispatch_from (pmBrewSw (fun _ => Except.ok ()))
          (.Sync 0 false 0 false false false false true false)
          ["curl", "wget"] [] {}).2.map Cmd.render
      = [["brew", "fetch", "curl", "wget"]] :=
  ⟨(sw_dispatch_single_download_cmd pmTrivial (fun _ => Except.ok ()) {}
      ["curl", "wget"] []).2.1,
   ((sw_dispatch_single_download_cmd pmTrivial (fun _ => Except.ok ()) {}
      ["curl", "wget"] []).2.2 rfl).2.2.2⟩

/-- C10: `Brew::qi` delegates to `Brew::si`, so on every oracle, config,
keyword list and extra-flag list the two perform the same command
invocations and return the same result. -/
theorem brew_qi_eq_si :
    ∀ (oracle : Cmd → Except Error Unit) (cfg : Config) (kws flags : List String),
      Brew.qi oracle cfg kws flags = Brew.si oracle cfg kws flags :=
  fun _ _ _ _ => rfl

/-- Inserting an element that is at most the repeated value of a constant
list puts it in front. -/
lemma orderedInsert_replicate_le (a c : Char) (h : a ≤ c) (n : Nat) :
    List.orderedInsert (fun x y : Char => x ≤ y) a (List.replicate n c)
      = a :: List.replicate n c := by
  cases n with
  | zero => rfl
  | succ m =>
      rw [List.replicate_succ]
      exact List.orderedInsert_of_le (fun x y : Char => x ≤ y) (List.replicate m c) h

/-- Sorting a constant list leaves it unchanged. -/
lemma insertionSort_replicate (c : Char) (n : Nat) :
    List.insertionSort (· ≤ ·) (List.replicate n c) = List.replicate n c := by
  induction n with
  | zero => rfl
  | succ k ih =>
      rw [List.replicate_succ]
      simp only [List.insertionSort]
      rw [ih, orderedInsert_replicate_le c c le_rfl, ← List.replicate_succ]

/-- Sorting then lower-casing a leading letter followed by a constant run. -/
lemma sortLower_cons_replicate (a c : Char) (h : a ≤ c) (n : Nat) :
    (List.insertionSort (· ≤ ·) (a :: List.replicate n c)).map Char.toLower
      = a.toLower :: List.replicate n c.toLower := by
  simp only [List.insertionSort]
  rw [insertionSort_replicate, orderedInsert_replicate_le a c h]
  simp [List.map_replicate]

/-- The canonical key of `-Q` with only the `i` counter set `n` times. -/
lemma key_query_i (n : Nat) (cfg : Config) :
    dispatchKey (.Query false false n false false false false false false false) cfg
      = (String.mk ('q' :: List.replicate n 'i'), cfg) := by
  simp only [dispatchKey, collectOptions, flagLetter, counterLetters,
    Bool.false_eq_true, if_false, List.nil_append, List.append_nil, List.cons_append]
  rw [sortLower_cons_replicate 'Q' 'i' (by decide) n]
  rfl

/-- The canonical key of `-S` with only the `c` counter set `n` times. -/
lemma key_sync_c (n : Nat) (cfg : Config) :
    dispatchKey (.Sync n false 0 false false false false false false) cfg
      = (String.mk ('s' :: List.replicate n 'c'), cfg) := by
  simp only [dispatchKey, collectOptions, flagLetter, counterLetters,
    Bool.false_eq_true, if_false, List.nil_append, List.append_nil, List.cons_append,
    List.replicate_zero]
  rw [sortLower_cons_replicate 'S' 'c' (by decide) n]
  rfl

/-- The canonical key of `-S` with only the `i` counter set `n` times. -/
lemma key_sync_i (n : Nat) (cfg : Config) :
    dispatchKey (.Sync 0 false n false false false false false false) cfg
      = (String.mk ('s' :: List.replicate n 'i'), cfg) := by
  simp only [dispatchKey, collectOptions, flagLetter, counterLetters,
    Bool.false_eq_true, if_false, List.nil_append, List.append_nil, List.cons_append,
    List.replicate_zero]
  rw [sortLower_cons_replicate 'S' 'i' (by decide) n]
  rfl

/-- None of the 30 identifiers both starts with 'q' and has three or more
characters. -/
lemma methods_no_long_q :
    ∀ s ∈ METHODS, ¬(s.data.take 1 = ['q'] ∧ 3 ≤ s.data.length) := by
  decide

/-- A key of the shape `q` followed by at least two `i`s is unrecognized. -/
lemma qii_key_not_mem (k : Nat) :
    String.mk ('q' :: 'i' :: 'i' :: List.replicate k 'i') ∉ METHODS := by
  intro h
  refine methods_no_long_q _ h ⟨rfl, ?_⟩
  simp

/-- C6: whenever the canonical key is not one of the 30 identifiers,
dispatch fails with `ArgParseError "Invalid flag"`, issues no command, and
never touches the backend: the outcome is one fixed error value for every
backend `pm`. -/
theorem unrecognized_no_dispatch :
    ∀ (ops : Operations) (kws flags : List String) (cfg : Config),
      (dispatchKey ops cfg).1 ∉ METHODS →
      ∀ pm, dispatch_from pm ops kws flags cfg
          = (Except.error (Error.argParseError "Invalid flag"), []) := by
  intro ops kws flags cfg h pm
  simp only [dispatch_from]
  rw [if_neg h]

/-- Witness for C6 at the flag combination `-Qii` under the trivial backend. -/
theorem unrecognized_no_dispatch_witness :
    dispatch_from pmTrivial
        (.Query false false 2 false false false false false false false) [] [] {}
      = (Except.error (Error.argParseError "Invalid flag"), []) :=
  unrecognized_no_dispatch _ [] [] {} (by decide) pmTrivial

/-- C9: the Query `i` sub-flag is a counter, and any occurrence count of two
or more yields a key `qii...` outside the 30 identifiers, so `-Qii` fails
with the unrecognized-operation error and issues no command — while `-Sii`
dispatches to the backend's `sii` capability. -/
theorem query_ii_unrecognized :
    ∀ (n : Nat), 2 ≤ n →
      ∀ (pm : Config → String → List String → List String → ExecResult)
        (kws flags : List String) (cfg : Config),
        dispatch_from pm
            (.Query false false n false false false false false false false) kws flags cfg
          = (Except.error (Error.argParseError "Invalid flag"), [])
        ∧ dispatch_from pm
            (.Sync 0 false 2 false false false false false false) kws flags cfg
          = pm cfg "sii" kws flags := by
  intro n hn pm kws flags cfg
  obtain ⟨k, rfl⟩ : ∃ k, n = k + 2 := ⟨n - 2, by omega⟩
  constructor
  · have hkey := key_query_i (k + 2) cfg
    rw [show List.replicate (k + 2) 'i' = 'i' :: 'i' :: List.replicate k 'i' by
      rw [List.replicate_succ, List.replicate_succ]] at hkey
    simp only [dispatch_from, hkey]
    rw [if_neg (qii_key_not_mem k)]
  · have hkey := key_sync_i 2 cfg
    simp only [dispatch_from, hkey]
    rw [if_pos (by decide)]
    rw [show (String.mk ('s' :: List.replicate 2 'i')) = "sii" from by decide]

/-- Witness for C9 at `n = 2` under the trivial backend. -/
theorem query_ii_unrecognized_witness :
    dispatch_from pmTrivial
        (.Query false false 2 false false false false false false false) [] [] {}
      = (Except.error (Error.argParseError "Invalid flag"), [])
    ∧ dispatch_from pmTrivial
        (.Sync 0 false 2 false false false false false false) [] [] {}
      = pmTrivial {} "sii" [] [] :=
  query_ii_unrecognized 2 (by decide) pmTrivial [] [] {}

/-- C3: for Remove, Sync and Update a set `p` (print/preview) sub-flag only
sets `dry_run` in the config and leaves the canonical identifier unchanged
(`-Sp` canonicalizes to "s"), while for Query the `p` sub-flag leaves the
config unchanged and contributes the letter 'p' (one more occurrence of 'p'
among the collected letters, and `-Qp` canonicalizes to "qp"). -/
theorem print_flag_aliases_dry_run :
    ∀ (cfg : Config),
      (∀ (n : Bool) (s : Nat),
        dispatchKey (.Remove n true s) cfg
          = ((dispatchKey (.Remove n false s) cfg).1, { cfg with dry_run := true }))
      ∧ (∀ (c : Nat) (g : Bool) (i : Nat) (l s u w y : Bool),
        dispatchKey (.Sync c g i l true s u w y) cfg
          = ((dispatchKey (.Sync c g i l false s u w y) cfg).1, { cfg with dry_run := true }))
      ∧ dispatchKey (.Update true) cfg
          = ((dispatchKey (.Update false) cfg).1, { cfg with dry_run := true })
      ∧ dispatchKey (.Sync 0 false 0 false true false false false false) cfg
          = ("s", { cfg with dry_run := true })
      ∧ (∀ (c e : Bool) (i : Nat) (k l m o s u : Bool),
          (collectOptions (.Query c e i k l m o true s u) cfg).1.count 'p'
            = (collectOptions (.Query c e i k l m o false s u) cfg).1.count 'p' + 1
          ∧ (collectOptions (.Query c e i k l m o true s u) cfg).2 = cfg)
      ∧ dispatchKey (.Query false false 0 false false false false true false false) cfg
          = ("qp", cfg) := by
  intro cfg
  refine ⟨?_, ?_, ?_, ?_, ?_, ?_⟩
  · intro n s
    simp [dispatchKey, collectOptions]
  · intro c g i l s u w y
    simp [dispatchKey, collectOptions]
  · simp [dispatchKey, collectOptions]
  · simp +decide [dispatchKey, collectOptions, flagLetter, counterLetters, Prod.mk.injEq]
  · intro c e i k l m o s u
    constructor
    · simp +decide [collectOptions, flagLetter, counterLetters, List.count_append,
        List.count_cons, List.count_nil, List.count_replicate, apply_ite (List.count 'p')]
    · simp [collectOptions]
  · simp +decide [dispatchKey, collectOptions, flagLetter, counterLetters, Prod.mk.injEq]

/-- C7: each counter sub-flag contributes its letter once per occurrence:
among the collected letters, Sync's `c` and `i` counters, Query's `i`
counter and Remove's `s` counter appear exactly as often as their
occurrence counts, whatever the other sub-flags; consequently `-S` with
`c` counted `n` times canonicalizes to `s` followed by `n` `c`s, and
`-Scc` and `-Sii` canonicalize to "scc" and "sii". -/
theorem counter_occurrences_repeat_letter :
    ∀ (cfg : Config),
      (∀ (c : Nat) (g : Bool) (i : Nat) (l p s u w y : Bool),
        (collectOptions (.Sync c g i l p s u w y) cfg).1.count 'c' = c
        ∧ (collectOptions (.Sync c g i l p s u w y) cfg).1.count 'i' = i)
      ∧ (∀ (c e : Bool) (i : Nat) (k l m o p s u : Bool),
        (collectOptions (.Query c e i k l m o p s u) cfg).1.count 'i' = i)
      ∧ (∀ (n p : Bool) (s : Nat),
        (collectOptions (.Remove n p s) cfg).1.count 's' = s)
      ∧ (∀ n, dispatchKey (.Sync n false 0 false false false false false false) cfg
          = (String.mk ('s' :: List.replicate n 'c'), cfg))
      ∧ dispatchKey (.Sync 2 false 0 false false false false false false) cfg
          = ("scc", cfg)
      ∧ dispatchKey (.Sync 0 false 2 false false false false false false) cfg
          = ("sii", cfg) := by
  intro cfg
  refine ⟨?_, ?_, ?_, fun n => key_sync_c n cfg, ?_, ?_⟩
  · intro c g i l p s u w y
    constructor
    · simp +decide [collectOptions, flagLetter, counterLetters, List.count_append,
        List.count_cons, List.count_nil, List.count_replicate, apply_ite (List.count 'c')]
    · simp +decide [collectOptions, flagLetter, counterLetters, List.count_append,
        List.count_cons, List.count_nil, List.count_replicate, apply_ite (List.count 'i')]
  · intro c e i k l m o p s u
    simp +decide [collectOptions, flagLetter, counterLetters, List.count_append,
      List.count_cons, List.count_nil, List.count_replicate, apply_ite (List.count 'i')]
  · intro n p s
    simp +decide [collectOptions, flagLetter, counterLetters, List.count_append,
      List.count_cons, List.count_nil, List.count_replicate, apply_ite (List.count 's')]
  · rw [key_sync_c 2 cfg]
    rw [show (String.mk ('s' :: List.replicate 2 'c')) = "scc" from by decide]
  · rw [key_sync_i 2 cfg]
    rw [show (String.mk ('s' :: List.replicate 2 'i')) = "sii" from by decide]

/-- Modelled from the spec: one sub-flag token as given on the command
line (the union of the boolean and counter sub-flags of the four
operations). -/
inductive SubFlag where
  | c | e | g | i | k | l | m | n | o | p | s | u | w | y
  deriving DecidableEq, Repr

/-- Modelled from the spec: the CLI layer reads a Query request's grouped
sub-flags one at a time in command-line order ("evaluated by straightforward
iteration"), setting a boolean sub-flag when it occurs and incrementing a
counter sub-flag once per occurrence (clap's from_occurrences); tokens not
belonging to the operation are ignored by this model. -/
def applyQueryFlag : Operations → SubFlag → Operations
  | .Query _ e i k l m o p s u, .c => .Query true e i k l m o p s u
  | .Query c _ i k l m o p s u, .e => .Query c true i k l m o p s u
  | .Query c e i k l m o p s u, .i => .Query c e (i + 1) k l m o p s u
  | .Query c e i _ l m o p s u, .k => .Query c e i true l m o p s u
  | .Query c e i k _ m o p s u, .l => .Query c e i k true m o p s u
  | .Query c e i k l _ o p s u, .m => .Query c e i k l true o p s u
  | .Query c e i k l m _ p s u, .o => .Query c e i k l m true p s u
  | .Query c e i k l m o _ s u, .p => .Query c e i k l m o true s u
  | .Query c e i k l m o p _ u, .s => .Query c e i k l m o p true u
  | .Query c e i k l m o p s _, .u => .Query c e i k l m o p s true
  | op, _ => op

/-- Modelled from the spec: sub-flag reading for a Remove request. -/
def applyRemoveFlag : Operations → SubFlag → Operations
  | .Remove _ p s, .n => .Remove true p s
  | .Remove n _ s, .p => .Remove n true s
  | .Remove n p s, .s => .Remove n p (s + 1)
  | op, _ => op

/-- Modelled from the spec: sub-flag reading for a Sync request. -/
def applySyncFlag : Operations → SubFlag → Operations
  | .Sync c g i l p s u w y, .c => .Sync (c + 1) g i l p s u w y
  | .Sync c _ i l p s u w y, .g => .Sync c true i l p s u w y
  | .Sync c g i l p s u w y, .i => .Sync c g (i + 1) l p s u w y
  | .Sync c g i _ p s u w y, .l => .Sync c g i true p s u w y
  | .Sync c g i l _ s u w y, .p => .Sync c g i l true s u w y
  | .Sync c g i l p _ u w y, .s => .Sync c g i l p true u w y
  | .Sync c g i l p s _ w y, .u => .Sync c g i l p s true w y
  | .Sync c g i l p s u _ y, .w => .Sync c g i l p s u true y
  | .Sync c g i l p s u w _, .y => .Sync c g i l p s u w true
  | op, _ => op

/-- Modelled from the spec: sub-flag reading for an Update request. -/
def applyUpdateFlag : Operations → SubFlag → Operations
  | .Update _, .p => .Update true
  | op, _ => op

/-- A Query request parsed from its command-line-ordered sub-flag tokens. -/
def parseQuery (l : List SubFlag) : Operations :=
  l.foldl applyQueryFlag (.Query false false 0 false false false false false false false)

/-- A Remove request parsed from its command-line-ordered sub-flag tokens. -/
def parseRemove (l : List SubFlag) : Operations :=
  l.foldl applyRemoveFlag (.Remove false false 0)

/-- A Sync request parsed from its command-line-ordered sub-flag tokens. -/
def parseSync (l : List SubFlag) : Operations :=
  l.foldl applySyncFlag (.Sync 0 false 0 false false false false false false)

/-- An Update request parsed from its command-line-ordered sub-flag tokens. -/
def parseUpdate (l : List SubFlag) : Operations :=
  l.foldl applyUpdateFlag (.Update false)

/-- Reading two sub-flags of a Query request commutes. -/
lemma applyQueryFlag_comm (st : Operations) (a b : SubFlag) :
    applyQueryFlag (applyQueryFlag st a) b = applyQueryFlag (applyQueryFlag st b) a := by
  cases st <;> cases a <;> cases b <;> rfl

/-- Reading two sub-flags of a Remove request commutes. -/
lemma applyRemoveFlag_comm (st : Operations) (a b : SubFlag) :
    applyRemoveFlag (applyRemoveFlag st a) b = applyRemoveFlag (applyRemoveFlag st b) a := by
  cases st <;> cases a <;> cases b <;> rfl

/-- Reading two sub-flags of a Sync request commutes. -/
lemma applySyncFlag_comm (st : Operations) (a b : SubFlag) :
    applySyncFlag (applySyncFlag st a) b = applySyncFlag (applySyncFlag st b) a := by
  cases st <;> cases a <;> cases b <;> rfl

/-- Reading two sub-flags of an Update request commutes. -/
lemma applyUpdateFlag_comm (st : Operations) (a b : SubFlag) :
    applyUpdateFlag (applyUpdateFlag st a) b = applyUpdateFlag (applyUpdateFlag st b) a := by
  cases st <;> cases a <;> cases b <;> rfl

/-- C5 (CLI sub-flag reading modelled from the spec): the canonical
identifier and config update depend only on which sub-flags occur and how
often, not on their command-line order — permuting the sub-flag tokens
leaves the dispatch key unchanged for all four operations; in particular
`-S -y -u` and `-S -u -y` both canonicalize to "suy". -/
theorem canonicalization_order_independent :
    ∀ (l₁ l₂ : List SubFlag) (cfg : Config), l₁.Perm l₂ →
      (dispatchKey (parseQuery l₁) cfg = dispatchKey (parseQuery l₂) cfg
        ∧ dispatchKey (parseRemove l₁) cfg = dispatchKey (parseRemove l₂) cfg
        ∧ dispatchKey (parseSync l₁) cfg = dispatchKey (parseSync l₂) cfg
        ∧ dispatchKey (parseUpdate l₁) cfg = dispatchKey (parseUpdate l₂) cfg)
      ∧ (dispatchKey (parseSync [.y, .u]) cfg = ("suy", cfg)
        ∧ dispatchKey (parseSync [.u, .y]) cfg = ("suy", cfg)) := by
  intro l₁ l₂ cfg hp
  refine ⟨⟨?_, ?_, ?_, ?_⟩, ?_, ?_⟩
  · simp only [parseQuery]
    rw [hp.foldl_eq' (fun t1 _ t2 _ z => applyQueryFlag_comm z t1 t2)]
  · simp only [parseRemove]
    rw [hp.foldl_eq' (fun t1 _ t2 _ z => applyRemoveFlag_comm z t1 t2)]
  · simp only [parseSync]
    rw [hp.foldl_eq' (fun t1 _ t2 _ z => applySyncFlag_comm z t1 t2)]
  · simp only [parseUpdate]
    rw [hp.foldl_eq' (fun t1 _ t2 _ z => applyUpdateFlag_comm z t1 t2)]
  · rw [show parseSync [.y, .u]
        = .Sync 0 false 0 false false false true false true from by decide]
    simp +decide [dispatchKey, collectOptions, flagLetter, counterLetters, Prod.mk.injEq]
  · rw [show parseSync [.u, .y]
        = .Sync 0 false 0 false false false true false true from by decide]
    simp +decide [dispatchKey, collectOptions, flagLetter, counterLetters, Prod.mk.injEq]

/-- Witness for C5: `-S -y -u` and `-S -u -y` yield the same dispatch key. -/
theorem canonicalization_order_independent_witness :
    dispatchKey (parseSync [.y, .u]) {} = dispatchKey (parseSync [.u, .y]) {} :=
  (canonicalization_order_independent [.y, .u] [.u, .y] {}
    (List.Perm.swap SubFlag.u SubFlag.y [])).1.2.2.1

end Pacaptr
